import Mathlib

/-!
Shallow embedding of the core analysis pipeline of the
WIKI_WORD_FREQUNCY_CLOUD repository:
`wiki_word_frequency/wiki_analyzer.py` (cache store, text normalizer,
content fetcher, orchestrator) and the `/analyze` route of
`wiki_word_cloud/app.py`.

Modelling conventions:
- Python strings are modelled by Lean `String`; character-level operations
  (`str.lower`, `str.title`, `string.punctuation`, `str.isdigit`) are
  modelled at ASCII granularity, which matches CPython on the ASCII range.
- Machine-independent integers only (`Nat`, `Int`); the 32-bit arithmetic of
  MD5 is done with explicit `% 4294967296`.
- Time instants are `Int` seconds relative to 2000-01-01T00:00:00, the
  instant `datetime.fromisoformat` produces for the `'2000-01-01'` default
  used by `load_from_cache`; `timedelta.days` is floor division by 86400
  (`Int.fdiv`, which floors toward minus infinity exactly as Python does).
- Network effects are oracles passed as function arguments; an exception
  raised by a call is an explicit error value.  Python code that can raise
  to its caller returns `Except Unit`.
- `collections.Counter` built from a list is an insertion-ordered
  association list `List (String × Nat)`.
-/

/-! ### ASCII character helpers (CPython semantics on the ASCII range) -/

/-- `str.lower` on one character: map `A`-`Z` (65-90) to `a`-`z`. -/
def pyToLower (c : Char) : Char :=
  if 65 ≤ c.toNat && c.toNat ≤ 90 then Char.ofNat (c.toNat + 32) else c

/-- `str.upper` on one character: map `a`-`z` (97-122) to `A`-`Z`. -/
def pyToUpper (c : Char) : Char :=
  if 97 ≤ c.toNat && c.toNat ≤ 122 then Char.ofNat (c.toNat - 32) else c

/-- A cased character in the sense of `str.title` (an ASCII letter). -/
def pyIsCased (c : Char) : Bool :=
  (65 ≤ c.toNat && c.toNat ≤ 90) || (97 ≤ c.toNat && c.toNat ≤ 122)

/-- Membership in Python's `string.punctuation`
(the 32 ASCII characters with codes 33-47, 58-64, 91-96, 123-126). -/
def isPunctChar (c : Char) : Bool :=
  (33 ≤ c.toNat && c.toNat ≤ 47) || (58 ≤ c.toNat && c.toNat ≤ 64) ||
  (91 ≤ c.toNat && c.toNat ≤ 96) || (123 ≤ c.toNat && c.toNat ≤ 126)

/-- Whitespace recognised by `str.split()` (ASCII part). -/
def isPySpace (c : Char) : Bool :=
  c == ' ' || c == '\t' || c == '\n' || c == '\x0b' || c == '\x0c' || c == '\r'

/-- Single-character replacement, the model of `str.replace(a, b)` for
one-character arguments (at the code-point level, as in Python). -/
def replaceChar (a b : Char) (s : String) : String :=
  String.mk (s.data.map (fun c => if c == a then b else c))

/-- The state machine of CPython's `str.title()`: a cased character is
uppercased after a non-cased character and lowercased otherwise. -/
def titleAux : Bool → List Char → List Char
  | _, [] => []
  | prevCased, c :: cs =>
    (if pyIsCased c then (if prevCased then pyToLower c else pyToUpper c) else c)
      :: titleAux (pyIsCased c) cs

/-- `str.title()`. -/
def pythonTitle (s : String) : String := String.mk (titleAux false s.data)

/-! ### `str.split()` with no separator -/

/-- Accumulator-based splitter: `acc` holds the current word reversed. -/
def splitWsAux : List Char → List Char → List (List Char)
  | acc, [] => if acc.isEmpty then [] else [acc.reverse]
  | acc, c :: cs =>
    if isPySpace c then
      if acc.isEmpty then splitWsAux [] cs else acc.reverse :: splitWsAux [] cs
    else splitWsAux (c :: acc) cs

/-- `str.split()`: split on runs of whitespace, never producing empty words. -/
def pySplit (cs : List Char) : List (List Char) := splitWsAux [] cs

/-! ### Text normalizer: `process_text` (wiki_analyzer.py lines 213-239) -/

/-- The source's `process_text(text)`: lowercase, replace every
`string.punctuation` character by a space, delete digits
(`re.sub(r'\d+', '')` deletes exactly the digit characters), split on
whitespace, and keep words that are not stop words and have length > 1.
The NLTK stop-word set is process-global state, passed here explicitly. -/
def process_text (stop_words : List String) (text : String) : List String :=
  ((pySplit
      (((text.data.map pyToLower).map
          (fun c => if isPunctChar c then ' ' else c)).filter
        (fun c => !c.isDigit))).map
    (fun w => String.mk w)).filter
  (fun w => !stop_words.contains w && decide (w.length > 1))

/-- Words joined by single spaces (the shape of "already-normalized text"
in spec section 8). -/
def joinWords : List String → String
  | [] => ""
  | [w] => w
  | w :: ws => w ++ " " ++ joinWords ws

/-- `joinWords` at the character-list level, for inductive reasoning. -/
def joinData : List (List Char) → List Char
  | [] => []
  | [w] => w
  | w :: ws => w ++ ' ' :: joinData ws

/-! ### Counters -/

/-- One step of `collections.Counter` construction: increment the entry of
`w` if present, otherwise append `(w, 1)` (insertion order preserved). -/
def bumpCount (acc : List (String × Nat)) (w : String) : List (String × Nat) :=
  if acc.any (fun p => p.1 == w) then
    acc.map (fun p => if p.1 == w then (p.1, p.2 + 1) else p)
  else acc ++ [(w, 1)]

/-- `collections.Counter(words)` as an insertion-ordered association list. -/
def toCounter (ws : List String) : List (String × Nat) :=
  ws.foldl bumpCount []

/-- The count a frequency table assigns to a word (0 when absent). -/
def countOf (wc : List (String × Nat)) (w : String) : Nat :=
  ((wc.find? (fun p => p.1 == w)).map (fun p => p.2)).getD 0

/-! ### MD5 (RFC 1321), the model of `hashlib.md5(...).hexdigest()`
used by `get_cache_filename` (wiki_analyzer.py lines 33-45).
Messages are byte lists; all words are `Nat` reduced mod 2^32. -/

/-- Bitwise complement on 32-bit words represented as `Nat`. -/
def not32 (x : Nat) : Nat := 4294967295 - x

/-- Left rotation of a 32-bit word by `s` (0 < s < 32). -/
def rotl32 (x s : Nat) : Nat :=
  ((x <<< s) ||| (x >>> (32 - s))) % 4294967296

/-- The 64 MD5 sine-derived constants `K[i]` (RFC 1321). -/
def md5K : List Nat :=
  [0xd76aa478, 0xe8c7b756, 0x242070db, 0xc1bdceee,
   0xf57c0faf, 0x4787c62a, 0xa8304613, 0xfd469501,
   0x698098d8, 0x8b44f7af, 0xffff5bb1, 0x895cd7be,
   0x6b901122, 0xfd987193, 0xa679438e, 0x49b40821,
   0xf61e2562, 0xc040b340, 0x265e5a51, 0xe9b6c7aa,
   0xd62f105d, 0x02441453, 0xd8a1e681, 0xe7d3fbc8,
   0x21e1cde6, 0xc33707d6, 0xf4d50d87, 0x455a14ed,
   0xa9e3e905, 0xfcefa3f8, 0x676f02d9, 0x8d2a4c8a,
   0xfffa3942, 0x8771f681, 0x6d9d6122, 0xfde5380c,
   0xa4beea44, 0x4bdecfa9, 0xf6bb4b60, 0xbebfbc70,
   0x289b7ec6, 0xeaa127fa, 0xd4ef3085, 0x04881d05,
   0xd9d4d039, 0xe6db99e5, 0x1fa27cf8, 0xc4ac5665,
   0xf4292244, 0x432aff97, 0xab9423a7, 0xfc93a039,
   0x655b59c3, 0x8f0ccc92, 0xffeff47d, 0x85845dd1,
   0x6fa87e4f, 0xfe2ce6e0, 0xa3014314, 0x4e0811a1,
   0xf7537e82, 0xbd3af235, 0x2ad7d2bb, 0xeb86d391]

/-- The 64 per-round left-rotation amounts `s[i]` (RFC 1321). -/
def md5S : List Nat :=
  [7, 12, 17, 22, 7, 12, 17, 22, 7, 12, 17, 22, 7, 12, 17, 22,
   5, 9, 14, 20, 5, 9, 14, 20, 5, 9, 14, 20, 5, 9, 14, 20,
   4, 11, 16, 23, 4, 11, 16, 23, 4, 11, 16, 23, 4, 11, 16, 23,
   6, 10, 15, 21, 6, 10, 15, 21, 6, 10, 15, 21, 6, 10, 15, 21]

/-- Group bytes into little-endian 32-bit words. -/
def md5Words : List Nat → List Nat
  | b0 :: b1 :: b2 :: b3 :: rest =>
    (b0 + 256 * b1 + 65536 * b2 + 16777216 * b3) :: md5Words rest
  | _ => []

/-- One MD5 round `i` on state `(A, B, C, D)` with message words `M`. -/
def md5Step (M : List Nat) (i : Nat) (st : Nat × Nat × Nat × Nat) :
    Nat × Nat × Nat × Nat :=
  match st with
  | (A, B, C, D) =>
    let fg : Nat × Nat :=
      if i < 16 then ((B &&& C) ||| (not32 B &&& D), i % 16)
      else if i < 32 then ((D &&& B) ||| (not32 D &&& C), (5 * i + 1) % 16)
      else if i < 48 then (B ^^^ C ^^^ D, (3 * i + 5) % 16)
      else (C ^^^ (B ||| not32 D), (7 * i) % 16)
    let F := (fg.1 + A + md5K.getD i 0 + M.getD fg.2 0) % 4294967296
    (D, (B + rotl32 F (md5S.getD i 0)) % 4294967296, B, C)

/-- Process one 64-byte chunk. -/
def md5Chunk (st : Nat × Nat × Nat × Nat) (chunk : List Nat) :
    Nat × Nat × Nat × Nat :=
  let M := md5Words chunk
  match st, (List.range 64).foldl (fun s i => md5Step M i s) st with
  | (a, b, c, d), (A, B, C, D) =>
    ((a + A) % 4294967296, (b + B) % 4294967296,
     (c + C) % 4294967296, (d + D) % 4294967296)

/-- Fold over all 64-byte chunks of a padded message.  `fuel` only bounds
the recursion depth to keep it structural (hence kernel-reducible); it is
always called with at least as much fuel as there are bytes, and every
step consumes at least one byte, so all chunks are processed. -/
def md5Chunks (st : Nat × Nat × Nat × Nat) :
    Nat → List Nat → Nat × Nat × Nat × Nat
  | 0, _ => st
  | _, [] => st
  | fuel + 1, b :: bs =>
    md5Chunks (md5Chunk st (List.take 64 (b :: bs))) fuel (List.drop 64 (b :: bs))

/-- The eight little-endian bytes of the 64-bit message bit length. -/
def md5LenBytes (n : Nat) : List Nat :=
  [n % 256, (n / 256) % 256, (n / 65536) % 256, (n / 16777216) % 256,
   (n / 4294967296) % 256, (n / 1099511627776) % 256,
   (n / 281474976710656) % 256, (n / 72057594037927936) % 256]

/-- MD5 padding: a `0x80` byte, zero bytes to 56 mod 64, then the bit
length mod 2^64 in little-endian. -/
def md5Pad (msg : List Nat) : List Nat :=
  msg ++ 128 :: List.replicate ((119 - (msg.length % 64)) % 64) 0 ++
    md5LenBytes ((8 * msg.length) % 18446744073709551616)

/-- The four little-endian bytes of a 32-bit word. -/
def wordBytes (w : Nat) : List Nat :=
  [w % 256, (w / 256) % 256, (w / 65536) % 256, (w / 16777216) % 256]

/-- The 16-byte MD5 digest of a byte list. -/
def md5 (msg : List Nat) : List Nat :=
  match md5Chunks (0x67452301, 0xefcdab89, 0x98badcfe, 0x10325476)
      (md5Pad msg).length (md5Pad msg) with
  | (a, b, c, d) => wordBytes a ++ wordBytes b ++ wordBytes c ++ wordBytes d

/-- One lowercase hexadecimal digit. -/
def hexChar (n : Nat) : Char :=
  if n < 10 then Char.ofNat (48 + n) else Char.ofNat (87 + n)

/-- Two lowercase hexadecimal digits of one byte. -/
def byteHex (b : Nat) : List Char := [hexChar (b / 16), hexChar (b % 16)]

/-- `hashlib.md5(bytes).hexdigest()`. -/
def md5hex (msg : List Nat) : String :=
  String.mk (((md5 msg).map byteHex).flatten)

/-- UTF-8 encoding of one character (`str.encode('utf-8')` per character). -/
def utf8Char (c : Char) : List Nat :=
  let n := c.toNat
  if n < 128 then [n]
  else if n < 2048 then [192 + n / 64, 128 + n % 64]
  else if n < 65536 then [224 + n / 4096, 128 + (n / 64) % 64, 128 + n % 64]
  else [240 + n / 262144, 128 + (n / 4096) % 64, 128 + (n / 64) % 64, 128 + n % 64]

/-- `category.encode('utf-8')` as a byte list. -/
def strToBytes (s : String) : List Nat := (s.data.map utf8Char).flatten

/-! ### Cache store (wiki_analyzer.py lines 22-106) -/

/-- The cache directory `CACHE_DIR`; the absolute prefix
`os.path.dirname(os.path.abspath(__file__))` is irrelevant to the key
structure and is dropped. -/
def CACHE_DIR : String := "cache"

/-- `get_cache_filename(category)`: the MD5 hex digest of the UTF-8 bytes
of the category string, placed under `CACHE_DIR` with extension `.json`. -/
def get_cache_filename (category : String) : String :=
  CACHE_DIR ++ "/" ++ md5hex (strToBytes category) ++ ".json"

/-- The instant `datetime.fromisoformat('2000-01-01')`, the default used
when a cache record has no `timestamp` field; it is the origin of the
time model (seconds relative to 2000-01-01T00:00:00). -/
def default_timestamp : Int := 0

/-- Observable state of one category's cache file at read time.
`malformed` covers every way `json.load` or `datetime.fromisoformat`
can raise (unreadable file, invalid JSON, invalid timestamp string);
a missing `timestamp` field is `record none …`, and a missing
`word_counts` field is `record … []` (the source defaults it to `{}`). -/
inductive CacheFileState where
  | missing
  | malformed
  | record (timestamp : Option Int) (word_counts : List (String × Nat))
deriving DecidableEq

/-- `load_from_cache(category)` given the current time and the state of the
category's cache file.  Returns `(is_cached, word_counts)`; every exception
inside the `try` block is caught and turned into `(False, None)`.  The
expiry test is `(current_date - cache_date).days > 7`, where
`timedelta.days` floors toward minus infinity. -/
def load_from_cache (now : Int) (file : CacheFileState) :
    Bool × Option (List (String × Nat)) :=
  match file with
  | .missing => (false, none)
  | .malformed => (false, none)
  | .record ts wc =>
    if Int.fdiv (now - ts.getD default_timestamp) 86400 > 7 then (false, none)
    else (true, some wc)

/-- A record persisted by `save_to_cache`: `{category, timestamp,
word_counts}`. -/
structure CacheWrite where
  category : String
  timestamp : Int
  word_counts : List (String × Nat)
deriving DecidableEq

/-- `save_to_cache(category, word_counts)` writes this record at time
`now` (the filename is `get_cache_filename category`). -/
def save_to_cache (now : Int) (category : String)
    (word_counts : List (String × Nat)) : CacheWrite :=
  ⟨category, now, word_counts⟩

/-- The condition under which `analyze_category` (and the `/analyze` route)
accepts a cache read: `is_cached and cached_results and
len(cached_results) > 0`, i.e. a hit with a non-empty counter. -/
def cache_hit (now : Int) (file : CacheFileState) : Bool :=
  match load_from_cache now file with
  | (true, some wc) => !wc.isEmpty
  | _ => false

/-! ### Content fetcher (wiki_analyzer.py lines 108-211) -/

/-- Outcome of one category-members API query for a variant `cat`
(the request `list=categorymembers`, `cmtitle="Category:"+cat`,
`cmlimit=500`):
`fail` is any exception (network error, HTTP 4XX/5XX via
`raise_for_status`, invalid JSON); `noQuery` is a JSON body without
`query.categorymembers`; `members l` carries the `(title, ns)` pairs. -/
inductive ApiResult where
  | fail
  | noQuery
  | members (l : List (String × Int))
deriving DecidableEq

/-- The namespace-0 titles of a member list (the loop keeping
`member["ns"] == 0`). -/
def ns0Titles (l : List (String × Int)) : List String :=
  (l.filter (fun m => m.2 == 0)).map (fun m => m.1)

/-- What a variant's query contributes: `some pages` exactly when the query
succeeded, had a `query.categorymembers` field and yielded at least one
namespace-0 page — the condition under which the source returns. -/
def variantPages : ApiResult → Option (List String)
  | .members l => if (ns0Titles l).isEmpty then none else some (ns0Titles l)
  | _ => none

/-- Code-point-level test that `pre` starts the list `l`, the model of
`str.startswith`. -/
def headedBy : List Char → List Char → Bool
  | [], _ => true
  | _ :: _, [] => false
  | p :: ps, c :: cs => p == c && headedBy ps cs

/-- Strip the `"Category:"` marker when present (`category[9:]`; Python
slices by code point). -/
def stripCategoryLabel (category : String) : String :=
  if headedBy "Category:".data category.data then
    String.mk (category.data.drop 9)
  else category

/-- The category after prefix stripping and `replace(" ", "_")`. -/
def normalized_category (category : String) : String :=
  replaceChar ' ' '_' (stripCategoryLabel category)

/-- The `category_variations` list of `get_pages_in_category`, in source
order: original (normalized), `title()`, `replace("_"," ").title()`,
`replace("_"," ").title().replace(" ","_")`. -/
def category_variations (category : String) : List String :=
  [normalized_category category,
   pythonTitle (normalized_category category),
   pythonTitle (replaceChar '_' ' ' (normalized_category category)),
   replaceChar ' ' '_' (pythonTitle (replaceChar '_' ' ' (normalized_category category)))]

/-- The `for cat in category_variations` loop: query each variant in turn;
on an exception, a missing `query.categorymembers` field, or zero
namespace-0 pages, continue with the next variant; on the first variant
with at least one namespace-0 page, return its titles.  The first
component records which variants were actually queried. -/
def try_variations (env : String → ApiResult) :
    List String → List String × List String
  | [] => ([], [])
  | cat :: rest =>
    match variantPages (env cat) with
    | some pages => ([cat], pages)
    | none =>
      match try_variations env rest with
      | (queried, result) => (cat :: queried, result)

/-- `get_pages_in_category(category)` with its query log. -/
def get_pages_run (env : String → ApiResult) (category : String) :
    List String × List String :=
  try_variations env (category_variations category)

/-- `get_pages_in_category(category)`: the returned page titles. -/
def get_pages_in_category (env : String → ApiResult) (category : String) :
    List String :=
  (get_pages_run env category).2

/-- The variants `get_pages_in_category(category)` actually queried. -/
def get_pages_queried (env : String → ApiResult) (category : String) :
    List String :=
  (get_pages_run env category).1

/-- Outcome of one page-extract API query: `fail` is an exception during
the request (the source has no try/except here, so it propagates);
`response ex` is a parsed body whose page entry has extract `ex`
(`none` when the `extract` field is missing). -/
inductive PageFetchResult where
  | fail
  | response (extract : Option String)
deriving DecidableEq

/-- `get_page_content(page_title)`: returns the extract, `""` when the
`extract` field is absent, and lets any request exception escape. -/
def get_page_content (pageEnv : String → PageFetchResult)
    (page_title : String) : Except Unit String :=
  match pageEnv page_title with
  | .fail => .error ()
  | .response (some t) => .ok t
  | .response none => .ok ""

/-! ### Orchestrator: `analyze_category` (wiki_analyzer.py lines 241-281) -/

/-- The page loop of `analyze_category`: fetch each page's content and
extend `all_words` with its processed words; an exception from
`get_page_content` aborts the loop (there is no handler in the source). -/
def collect_words (pageEnv : String → PageFetchResult)
    (stop_words : List String) : List String → Except Unit (List String)
  | [] => .ok []
  | p :: ps =>
    match get_page_content pageEnv p with
    | .error e => .error e
    | .ok content =>
      match collect_words pageEnv stop_words ps with
      | .error e => .error e
      | .ok rest => .ok (process_text stop_words content ++ rest)

/-- The fresh-computation path of `analyze_category`: resolve pages (an
empty resolution returns an empty counter), fetch and process each page,
count, and cache the counter exactly when it is non-empty.  The result
carries the list of cache writes performed. -/
def analyze_fresh (stop_words : List String) (catEnv : String → ApiResult)
    (pageEnv : String → PageFetchResult) (now : Int) (category : String) :
    Except Unit (List (String × Nat) × List CacheWrite) :=
  let pages := get_pages_in_category catEnv category
  if pages.isEmpty then .ok ([], [])
  else
    match collect_words pageEnv stop_words pages with
    | .error e => .error e
    | .ok all_words =>
      let word_counts := toCounter all_words
      if word_counts.isEmpty then .ok (word_counts, [])
      else .ok (word_counts, [save_to_cache now category word_counts])

/-- `analyze_category(category, top_n, use_cache)`.  `top_n` is unused by
the source function (ranking is the caller's concern).  When `use_cache`
holds and the cache read yields a hit with a non-empty counter, that
counter is returned with no writes; otherwise the fresh path runs. -/
def analyze_category (stop_words : List String) (catEnv : String → ApiResult)
    (pageEnv : String → PageFetchResult) (now : Int)
    (cacheFile : CacheFileState) (category : String) (use_cache : Bool) :
    Except Unit (List (String × Nat) × List CacheWrite) :=
  if use_cache then
    match load_from_cache now cacheFile with
    | (true, some cached) =>
      if !cached.isEmpty then .ok (cached, [])
      else analyze_fresh stop_words catEnv pageEnv now category
    | _ => analyze_fresh stop_words catEnv pageEnv now category
  else analyze_fresh stop_words catEnv pageEnv now category

/-! ### The `/analyze` route (app.py lines 39-88) -/

/-- Stable descending insertion by count: an element goes before the first
strictly-smaller-or-equal-count element it meets, so earlier (insertion
order) entries stay first among ties — the behavior of
`sorted(..., key=itemgetter(1), reverse=True)` underlying
`Counter.most_common`. -/
def insertDesc (x : String × Nat) : List (String × Nat) → List (String × Nat)
  | [] => [x]
  | y :: ys => if x.2 ≥ y.2 then x :: y :: ys else y :: insertDesc x ys

/-- Stable sort by descending count. -/
def sortDesc : List (String × Nat) → List (String × Nat)
  | [] => []
  | x :: xs => insertDesc x (sortDesc xs)

/-- `Counter.most_common(n)`: the `n` highest-count entries, count
descending, ties in insertion order. -/
def most_common (n : Nat) (wc : List (String × Nat)) : List (String × Nat) :=
  (sortDesc wc).take n

/-- A response of the Flask route: a JSON payload with an HTTP status.
The 500 branch's message is `str(e)` in the source; the model keeps a
fixed marker since no claim depends on its text. -/
inductive RouteResponse where
  | ok (category : String) (words : List (String × Nat)) (source : String)
      (total_words : Nat)
  | err (code : Nat) (message : String)
deriving DecidableEq

/-- The shared tail of the route: rank, 404 on an empty ranking, else the
JSON payload. -/
def route_payload (category : String) (top_n : Nat)
    (word_counts : List (String × Nat)) (source : String) : RouteResponse :=
  let top_words := most_common top_n word_counts
  if top_words.isEmpty then
    .err 404 "No words found in the category. Try another category."
  else .ok category top_words source word_counts.length

/-- The `/analyze` route of app.py: reject an empty category with a 400
before anything else; otherwise read the cache (only when `use_cache`),
serve a non-empty hit as `source="cache"`, else call `analyze_category`
as `source="fresh analysis"`; an exception escaping `analyze_category`
becomes a 500. -/
def app_analyze (stop_words : List String) (catEnv : String → ApiResult)
    (pageEnv : String → PageFetchResult) (now : Int)
    (cacheFile : CacheFileState) (category : String) (top_n : Nat)
    (use_cache : Bool) : RouteResponse :=
  if category = "" then .err 400 "Category name is required"
  else
    match (if use_cache then load_from_cache now cacheFile else (false, none)) with
    | (true, some cached) =>
      if !cached.isEmpty then route_payload category top_n cached "cache"
      else
        match analyze_category stop_words catEnv pageEnv now cacheFile category use_cache with
        | .error _ => .err 500 "internal error"
        | .ok (word_counts, _) =>
          route_payload category top_n word_counts "fresh analysis"
    | _ =>
      match analyze_category stop_words catEnv pageEnv now cacheFile category use_cache with
      | .error _ => .err 500 "internal error"
      | .ok (word_counts, _) =>
        route_payload category top_n word_counts "fresh analysis"

/-! ### Concrete scenario environments -/

/-- The stop-word set stipulated by the scenario of spec section 8. -/
def scenarioStops : List String := ["like", "and", "are", "too"]

/-- Category-members oracle of the section-8 scenario: the category
`machine_learning` resolves at its first variant to two namespace-0
pages. -/
def scenarioCatEnv : String → ApiResult := fun s =>
  if s = "machine_learning" then .members [("Page one", 0), ("Page two", 0)]
  else .fail

/-- Page-content oracle of the section-8 scenario. -/
def scenarioPageEnv : String → PageFetchResult := fun p =>
  if p = "Page one" then .response (some "Cats like cats. Dogs like cats too.")
  else if p = "Page two" then .response (some "Cats and dogs are pets.")
  else .fail

/-- The frequency table the code computes in the section-8 scenario. -/
def scenarioTable : List (String × Nat) := [("cats", 4), ("dogs", 2), ("pets", 1)]

/-- The section-8 scenario run: cache disabled, category
`machine_learning`, stubbed resolution and fetching. -/
def scenarioRun : Except Unit (List (String × Nat) × List CacheWrite) :=
  analyze_category scenarioStops scenarioCatEnv scenarioPageEnv 0
    .missing "machine_learning" false

/-- Category-members oracle for the fetch-failure scenario: `ml` resolves
at its first variant to pages `P1` and `P2`. -/
def failCatEnv : String → ApiResult := fun s =>
  if s = "ml" then .members [("P1", 0), ("P2", 0)] else .fail

/-- Page oracle for the fetch-failure scenario: fetching `P1` raises, `P2`
has ordinary content. -/
def failPageEnv : String → PageFetchResult := fun p =>
  if p = "P1" then .fail else .response (some "Cats and dogs.")

/-- Category-members oracle of the variant-order witness: the first
variant's query raises, the second yields one namespace-0 page and one
subcategory. -/
def variantEnv : String → ApiResult := fun s =>
  if s = "machine_learning" then .fail
  else if s = "Machine_Learning" then
    .members [("Deep learning", 0), ("Category:Subfields", 14)]
  else .noQuery

/-- Oracle for the cache-write witness: one page with two words. -/
def writeCatEnv : String → ApiResult := fun s =>
  if s = "ml" then .members [("P", 0)] else .fail

/-- Page oracle for the cache-write witness. -/
def writePageEnv : String → PageFetchResult := fun _ =>
  .response (some "hello world")

/-- A token in "already-normalized text" (spec section 8): length > 1, not
a stop word, and every character already lowercase, not punctuation, not a
digit, and not whitespace (a token is a maximal whitespace-free unit, so
it contains none). -/
def cleanToken (stop_words : List String) (w : String) : Prop :=
  w.length > 1 ∧ stop_words.contains w = false ∧
  ∀ c ∈ w.data, pyToLower c = c ∧ isPunctChar c = false ∧
    c.isDigit = false ∧ isPySpace c = false

instance (stop_words : List String) (w : String) :
    Decidable (cleanToken stop_words w) := by
  unfold cleanToken; infer_instance

/-! ### Helper lemmas -/

/-- Mapping a function that fixes every element of a list is the identity. -/
theorem list_map_id_of {α : Type} (f : α → α) (l : List α)
    (h : ∀ a ∈ l, f a = a) : l.map f = l := by
  induction l with
  | nil => rfl
  | cons x xs ih =>
    simp [List.map_cons, h x (List.mem_cons_self x xs),
      ih (fun a ha => h a (List.mem_cons_of_mem x ha))]

/-- Filtering with a predicate every element satisfies is the identity. -/
theorem list_filter_all {α : Type} (p : α → Bool) (l : List α)
    (h : ∀ a ∈ l, p a = true) : l.filter p = l := by
  induction l with
  | nil => rfl
  | cons x xs ih =>
    simp [List.filter_cons, h x (List.mem_cons_self x xs),
      ih (fun a ha => h a (List.mem_cons_of_mem x ha))]

/-- `joinWords` and `joinData` agree through `String.data`. -/
theorem joinWords_data (ts : List String) :
    (joinWords ts).data = joinData (ts.map String.data) := by
  induction ts with
  | nil => rfl
  | cons w ws ih =>
    cases ws with
    | nil => rfl
    | cons x ws' =>
      simp only [List.map_cons] at ih ⊢
      simp only [joinWords, joinData]
      rw [← ih]
      simp [String.data_append]

/-- Every character of `joinData ws` is a separator space or a character
of one of the words. -/
theorem mem_joinData {c : Char} (ws : List (List Char))
    (h : c ∈ joinData ws) : c = ' ' ∨ ∃ w ∈ ws, c ∈ w := by
  induction ws with
  | nil => simp [joinData] at h
  | cons w ws ih =>
    cases ws with
    | nil =>
      simp only [joinData] at h
      exact Or.inr ⟨w, by simp, h⟩
    | cons x ws' =>
      simp only [joinData] at h
      rcases List.mem_append.mp h with hw | hc
      · exact Or.inr ⟨w, by simp, hw⟩
      · rcases List.mem_cons.mp hc with hsp | hj
        · exact Or.inl hsp
        · rcases ih hj with hsp | ⟨w', hw', hcw'⟩
          · exact Or.inl hsp
          · exact Or.inr ⟨w', by simp [hw'], hcw'⟩

/-- `splitWsAux` consumes a whitespace-free block into its accumulator. -/
theorem splitWsAux_nonspace (w : List Char) :
    ∀ (acc cs : List Char), (∀ c ∈ w, isPySpace c = false) →
    splitWsAux acc (w ++ cs) = splitWsAux (w.reverse ++ acc) cs := by
  induction w with
  | nil => intro acc cs _; rfl
  | cons c w' ih =>
    intro acc cs h
    have hc : isPySpace c = false := h c (by simp)
    have step : splitWsAux acc (c :: (w' ++ cs)) = splitWsAux (c :: acc) (w' ++ cs) := by
      simp only [splitWsAux, hc, Bool.false_eq_true, if_false]
    rw [List.cons_append, step, ih (c :: acc) cs (fun d hd => h d (by simp [hd]))]
    simp

/-- Splitting the space-joined form of non-empty, whitespace-free words
recovers exactly those words. -/
theorem pySplit_joinData (tsd : List (List Char))
    (h : ∀ w ∈ tsd, w ≠ [] ∧ ∀ c ∈ w, isPySpace c = false) :
    pySplit (joinData tsd) = tsd := by
  induction tsd with
  | nil => rfl
  | cons w ws ih =>
    obtain ⟨hwne, hwns⟩ := h w (by simp)
    cases ws with
    | nil =>
      have h1 := splitWsAux_nonspace w [] [] hwns
      rw [List.append_nil] at h1
      show splitWsAux [] w = [w]
      rw [h1]
      have hne : w.reverse.isEmpty = false := by
        cases w with
        | nil => exact absurd rfl hwne
        | cons a as => simp
      simp only [splitWsAux, hne, Bool.false_eq_true, if_false,
        List.append_nil, List.reverse_reverse]
    | cons x ws' =>
      have h1 := splitWsAux_nonspace w [] (' ' :: joinData (x :: ws')) hwns
      show splitWsAux [] (w ++ ' ' :: joinData (x :: ws')) = w :: x :: ws'
      rw [h1]
      have hne : w.reverse.isEmpty = false := by
        cases w with
        | nil => exact absurd rfl hwne
        | cons a as => simp
      have hsp : isPySpace ' ' = true := rfl
      simp only [splitWsAux, hsp, if_true, hne, Bool.false_eq_true, if_false,
        List.append_nil, List.reverse_reverse]
      show w :: pySplit (joinData (x :: ws')) = w :: x :: ws'
      rw [ih (fun u hu => h u (by simp [hu]))]

/-! ### Sanity: the MD5 embedding reproduces the RFC 1321 test vectors -/

/-- The MD5 model hashes the empty message as hashlib does. -/
theorem md5hex_vector_empty :
    md5hex (strToBytes "") = "d41d8cd98f00b204e9800998ecf8427e" := by decide

/-- The MD5 model hashes "abc" as hashlib does. -/
theorem md5hex_vector_abc :
    md5hex (strToBytes "abc") = "900150983cd24fb0d6963f7d28e17f72" := by decide

/-! ### Claim theorems -/

/-- C1 (counterexample): in the section-8 scenario — category
`machine_learning`, cache disabled, two stubbed pages with contents
"Cats like cats. Dogs like cats too." and "Cats and dogs are pets.",
stop words `like`, `and`, `are`, `too` — the computed table assigns
`cats` the count 4, not the claimed 3 (the first page contains three
occurrences of `cats` and the second a fourth). -/
theorem c1_scenario_cats_count_is_four_not_three :
    scenarioRun = .ok (scenarioTable, [save_to_cache 0 "machine_learning" scenarioTable]) ∧
    countOf scenarioTable "cats" = 4 ∧ ¬ countOf scenarioTable "cats" = 3 := by
  refine ⟨rfl, by decide, by decide⟩

/-- C1 (amended): the section-8 scenario yields the frequency table
`{cats: 4, dogs: 2, pets: 1}` (and nothing else), case-insensitively,
with stop words and single-letter tokens excluded. -/
theorem c1_scenario_frequency_table :
    scenarioRun = .ok (scenarioTable, [save_to_cache 0 "machine_learning" scenarioTable]) ∧
    countOf scenarioTable "cats" = 4 ∧ countOf scenarioTable "dogs" = 2 ∧
    countOf scenarioTable "pets" = 1 ∧ scenarioTable.length = 3 := by
  refine ⟨rfl, by decide, by decide, by decide, by decide⟩

/-- C3 (counterexample): a valid, non-empty record whose timestamp is
648000 seconds (7.5 days) before read time is older than 7 days, yet
`load_from_cache` returns it as a hit with its stored table, because
`timedelta.days` floors 7.5 to 7 and the test is `days > 7`. -/
theorem c3_record_older_than_seven_days_still_hit :
    load_from_cache 648000 (.record (some 0) [("cats", 2)]) =
      (true, some [("cats", 2)]) ∧
    (648000 : Int) - 0 > 7 * 86400 := by decide

/-- C3 (amended): a record whose whole-day age exceeds 7 — that is, a
record at least 8 days old — is treated as absent at read time regardless
of its stored frequency table. -/
theorem c3_load_from_cache_expires_after_seven_whole_days
    (now ts : Int) (wc : List (String × Nat))
    (h : Int.fdiv (now - ts) 86400 > 7) :
    load_from_cache now (.record (some ts) wc) = (false, none) := by
  simp [load_from_cache, h]

/-- C3 (witness): a record exactly 8 days old, with a valid non-empty
table, is a miss. -/
theorem c3_load_from_cache_expires_after_seven_whole_days_witness :
    load_from_cache 691200 (.record (some 0) [("x", 1)]) = (false, none) :=
  c3_load_from_cache_expires_after_seven_whole_days 691200 0 [("x", 1)] (by decide)

/-- C4 (code evaluation at the failing input): with a category resolving
to pages `P1` and `P2` where fetching `P1` raises, `analyze_category`
propagates the exception and the whole analysis aborts — `P2` is never
processed and no table is returned. -/
theorem c4_fetch_failure_aborts_analysis :
    analyze_category [] failCatEnv failPageEnv 0 .missing "ml" false =
      .error () := rfl

/-- C5: the `/analyze` route rejects the empty category string with the
400 validation error before consulting the cache, the resolver or the
fetcher — the response is the same for every environment, so resolution
is never reached and no normal result is returned. -/
theorem c5_route_rejects_empty_category (stop_words : List String)
    (catEnv : String → ApiResult) (pageEnv : String → PageFetchResult)
    (now : Int) (cacheFile : CacheFileState) (top_n : Nat) (use_cache : Bool) :
    app_analyze stop_words catEnv pageEnv now cacheFile "" top_n use_cache =
      .err 400 "Category name is required" := rfl

/-- C6 (counterexample): `"A"` and `"a"` differ only in letter case
(identical after lowercasing), yet `get_cache_filename` gives them
different cache files — the key is the MD5 of the exact string, with no
lowercasing. -/
theorem c6_cache_key_not_case_insensitive :
    "A" ≠ "a" ∧ "A".data.map pyToLower = "a".data.map pyToLower ∧
    get_cache_filename "A" ≠ get_cache_filename "a" := by decide

/-- C6 (amended): the cache key is a deterministic function of the
category string's exact UTF-8 bytes (hence stable across process
restarts), but it is case-sensitive: strings differing only in letter
case map to distinct cache files. -/
theorem c6_cache_key_deterministic_but_case_sensitive :
    (∀ c₁ c₂ : String, strToBytes c₁ = strToBytes c₂ →
      get_cache_filename c₁ = get_cache_filename c₂) ∧
    get_cache_filename "A" ≠ get_cache_filename "a" := by
  constructor
  · intro c₁ c₂ h
    simp [get_cache_filename, h]
  · decide

/-- C6 (witness): the determinism part applied at a concrete category. -/
theorem c6_cache_key_deterministic_but_case_sensitive_witness :
    get_cache_filename "Machine_learning" = get_cache_filename "Machine_learning" :=
  c6_cache_key_deterministic_but_case_sensitive.1
    "Machine_learning" "Machine_learning" rfl

/-- C7: a cache file that exists but is malformed (unreadable, invalid
JSON, or an unparsable timestamp) is reported as a miss `(False, None)`;
`load_from_cache` is total, so the error never reaches its caller. -/
theorem c7_malformed_cache_record_is_miss (now : Int) :
    load_from_cache now .malformed = (false, none) := rfl

/-- C10 (counterexample): a record lacking its timestamp field is read
with the default instant 2000-01-01, but at a read time 7.5 days past
that default (more than 7 days) the record is still returned as a hit,
because the whole-day difference 7 is not greater than 7. -/
theorem c10_missing_timestamp_hit_within_eighth_day :
    load_from_cache 648000 (.record none [("dogs", 1)]) =
      (true, some [("dogs", 1)]) ∧
    (648000 : Int) - default_timestamp > 7 * 86400 := by decide

/-- C10 (amended): a record lacking its timestamp field is dated
2000-01-01 and is therefore a miss whenever the read time is at least 8
days (whole-day difference greater than 7) past that default. -/
theorem c10_missing_timestamp_defaults_to_2000
    (now : Int) (wc : List (String × Nat))
    (h : Int.fdiv (now - default_timestamp) 86400 > 7) :
    load_from_cache now (.record none wc) = (false, none) := by
  simp [load_from_cache, h]

/-- C10 (witness): ten days past 2000-01-01, a timestampless record with
a non-empty table is a miss. -/
theorem c10_missing_timestamp_defaults_to_2000_witness :
    load_from_cache 864000 (.record none [("x", 5)]) = (false, none) :=
  c10_missing_timestamp_defaults_to_2000 864000 [("x", 5)] (by decide)

/-- The variant loop returns the pages of the first succeeding variant and
queries exactly the variants up to and including it. -/
theorem try_variations_split (env : String → ApiResult)
    (pre : List String) (post : List String) (v : String) (ps : List String)
    (hpre : ∀ u ∈ pre, variantPages (env u) = none)
    (hv : variantPages (env v) = some ps) :
    try_variations env (pre ++ v :: post) = (pre ++ [v], ps) := by
  induction pre with
  | nil => simp [try_variations, hv]
  | cons u pre ih =>
    have hu : variantPages (env u) = none := hpre u (List.mem_cons_self u pre)
    have ih' := ih (fun x hx => hpre x (List.mem_cons_of_mem u hx))
    simp [try_variations, hu, ih']

/-- C2: `get_pages_in_category` builds exactly the four surface-form
variants in the fixed order — (a) the input with an optional `Category:`
marker stripped and spaces turned to underscores, (b) its title-cased
form, (c) the title-cased form with underscores as spaces, (d) that with
spaces back to underscores — and if every variant before `v` yields no
namespace-0 page while `v`'s query yields the non-empty namespace-0 title
list `ps`, the function returns `ps` and queries exactly the variants
through `v`, never any later one. -/
theorem c2_first_successful_variant_wins (env : String → ApiResult)
    (category : String) (pre post : List String) (v : String) (ps : List String)
    (hsplit : category_variations category = pre ++ v :: post)
    (hpre : ∀ u ∈ pre, variantPages (env u) = none)
    (hv : variantPages (env v) = some ps) :
    category_variations category =
      [normalized_category category,
       pythonTitle (normalized_category category),
       pythonTitle (replaceChar '_' ' ' (normalized_category category)),
       replaceChar ' ' '_' (pythonTitle (replaceChar '_' ' ' (normalized_category category)))] ∧
    get_pages_in_category env category = ps ∧
    get_pages_queried env category = pre ++ [v] := by
  have h := try_variations_split env pre post v ps hpre hv
  refine ⟨rfl, ?_, ?_⟩ <;>
    simp [get_pages_in_category, get_pages_queried, get_pages_run, hsplit, h]

/-- C2 (witness): for input `Category:machine learning`, the first variant
`machine_learning` fails (network error) and the second variant
`Machine_Learning` yields one namespace-0 page; the resolver returns that
page and the remaining two variants are never queried. -/
theorem c2_first_successful_variant_wins_witness :
    get_pages_in_category variantEnv "Category:machine learning" = ["Deep learning"] ∧
    get_pages_queried variantEnv "Category:machine learning" =
      ["machine_learning", "Machine_Learning"] := by
  have h := c2_first_successful_variant_wins variantEnv "Category:machine learning"
    ["machine_learning"] ["Machine Learning", "Machine_Learning"]
    "Machine_Learning" ["Deep learning"] (by decide) (by decide) (by decide)
  exact ⟨h.2.1, h.2.2⟩

/-- The fresh path writes the computed table to the cache exactly when it
is non-empty. -/
theorem analyze_fresh_writes (stop_words : List String)
    (catEnv : String → ApiResult) (pageEnv : String → PageFetchResult)
    (now : Int) (category : String)
    (tbl : List (String × Nat)) (writes : List CacheWrite)
    (hok : analyze_fresh stop_words catEnv pageEnv now category = .ok (tbl, writes)) :
    writes = if tbl.isEmpty then [] else [save_to_cache now category tbl] := by
  simp only [analyze_fresh] at hok
  split at hok
  · rw [Except.ok.injEq, Prod.mk.injEq] at hok
    obtain ⟨h1, h2⟩ := hok
    subst h1; subst h2; rfl
  · split at hok
    · exact absurd hok (by simp)
    · split at hok <;>
      · rw [Except.ok.injEq, Prod.mk.injEq] at hok
        obtain ⟨h1, h2⟩ := hok
        subst h1; subst h2
        simp_all

/-- C8: whenever `analyze_category` takes the fresh-computation path —
because the caller passed `use_cache = False` or because the cache read
was not a non-empty hit — and it returns a table, the table is written to
the cache store exactly when it is non-empty: a non-empty fresh result is
always persisted, even with `use_cache = False`, and an empty result is
never persisted. -/
theorem c8_fresh_result_cached_iff_nonempty (stop_words : List String)
    (catEnv : String → ApiResult) (pageEnv : String → PageFetchResult)
    (now : Int) (cacheFile : CacheFileState) (category : String)
    (use_cache : Bool) (tbl : List (String × Nat)) (writes : List CacheWrite)
    (hfresh : use_cache = false ∨ cache_hit now cacheFile = false)
    (hok : analyze_category stop_words catEnv pageEnv now cacheFile category
      use_cache = .ok (tbl, writes)) :
    writes = if tbl.isEmpty then [] else [save_to_cache now category tbl] := by
  have hfr : analyze_fresh stop_words catEnv pageEnv now category = .ok (tbl, writes) := by
    rcases hfresh with h | h
    · rw [h] at hok
      simpa [analyze_category] using hok
    · cases hu : use_cache with
      | false =>
        rw [hu] at hok
        simpa [analyze_category] using hok
      | true =>
        rw [hu] at hok
        unfold analyze_category at hok
        simp only [if_true] at hok
        unfold cache_hit at h
        rcases hload : load_from_cache now cacheFile with ⟨b, o⟩
        rw [hload] at hok h
        cases b <;> rcases o with _ | cached <;> simp_all
  exact analyze_fresh_writes stop_words catEnv pageEnv now category tbl writes hfr

/-- C8 (witness): with caching disabled, a fresh computation over one page
with two words writes exactly its non-empty table to the cache. -/
theorem c8_fresh_result_cached_iff_nonempty_witness :
    [save_to_cache 0 "ml" [("hello", 1), ("world", 1)]] =
      if ([("hello", 1), ("world", 1)] : List (String × Nat)).isEmpty then []
      else [save_to_cache 0 "ml" [("hello", 1), ("world", 1)]] :=
  c8_fresh_result_cached_iff_nonempty [] writeCatEnv writePageEnv 0 .missing
    "ml" false [("hello", 1), ("world", 1)]
    [save_to_cache 0 "ml" [("hello", 1), ("world", 1)]] (Or.inl rfl) rfl

/-- C9: `process_text` is the identity on already-normalized text: if
every token is lowercase, punctuation-free, digit-free, whitespace-free,
not a stop word and longer than one character, then normalizing their
single-space join returns exactly that token sequence; consequently
normalizing twice equals normalizing once. -/
theorem c9_normalize_idempotent (stop_words : List String) (ts : List String)
    (h : ∀ w ∈ ts, cleanToken stop_words w) :
    process_text stop_words (joinWords ts) = ts ∧
    process_text stop_words (joinWords (process_text stop_words (joinWords ts))) =
      process_text stop_words (joinWords ts) := by
  have hchars : ∀ c ∈ joinData (ts.map String.data),
      pyToLower c = c ∧ isPunctChar c = false ∧ c.isDigit = false := by
    intro c hc
    rcases mem_joinData _ hc with rfl | ⟨w, hw, hcw⟩
    · exact ⟨by decide, by decide, by decide⟩
    · rcases List.mem_map.mp hw with ⟨w', hw', rfl⟩
      have hp := (h w' hw').2.2 c hcw
      exact ⟨hp.1, hp.2.1, hp.2.2.1⟩
  have main : process_text stop_words (joinWords ts) = ts := by
    show ((pySplit ((((joinWords ts).data.map pyToLower).map
        (fun c => if isPunctChar c then ' ' else c)).filter
        (fun c => !c.isDigit))).map (fun w => String.mk w)).filter
        (fun w => !stop_words.contains w && decide (w.length > 1)) = ts
    rw [joinWords_data]
    rw [list_map_id_of pyToLower (joinData (ts.map String.data))
      (fun c hc => (hchars c hc).1)]
    rw [list_map_id_of (fun c => if isPunctChar c then ' ' else c)
      (joinData (ts.map String.data)) (fun c hc => by simp [(hchars c hc).2.1])]
    rw [list_filter_all (fun c => !c.isDigit) (joinData (ts.map String.data))
      (fun c hc => by simp [(hchars c hc).2.2])]
    rw [pySplit_joinData (ts.map String.data) ?tok]
    case tok =>
      intro w hw
      rcases List.mem_map.mp hw with ⟨w', hw', rfl⟩
      obtain ⟨hlen, _, hcs⟩ := h w' hw'
      constructor
      · intro hnil
        have hlen' : w'.length = w'.data.length := rfl
        rw [hlen', hnil] at hlen
        simp at hlen
      · intro c hc
        exact (hcs c hc).2.2.2
    rw [List.map_map]
    rw [list_map_id_of ((fun w => String.mk w) ∘ String.data) ts (fun w _ => rfl)]
    exact list_filter_all _ ts (fun w hw => by
      obtain ⟨hlen, hstop, _⟩ := h w hw
      have hmem : w ∉ stop_words := by simpa using hstop
      simp [hlen, hmem])
  exact ⟨main, by rw [main, main]⟩

/-- C9 (witness): two clean tokens joined by one space normalize to
exactly themselves. -/
theorem c9_normalize_idempotent_witness :
    process_text ["like"] (joinWords ["cats", "dogs"]) = ["cats", "dogs"] :=
  (c9_normalize_idempotent ["like"] ["cats", "dogs"] (by decide)).1
